import Mathlib

/-!
Verification of the RTP HEVC depacketizer (`crosstyan/rtp-depay-example`).

The Python source is shallowly embedded: bytes are `List Nat` (each element a
byte value `< 256` where relevant), Python exceptions become an explicit
`PyError` sum carried in `Except`, and the generator `parse_parse` becomes a
fold that returns the list of yielded units together with the error (if any)
that terminated the iteration.  Bit operations `x >> k`, `x & (2^k - 1)` on
nonnegative integers are rendered as `x / 2^k` and `x % 2^k`.

Error taxonomy: the spec's `FormatError` corresponds to Python `ValueError`
(`PyError.valueError`), its `ProtocolViolationError` to `AssertionError`
raised by the FU sequencing asserts (`PyError.assertionError`), and its
`UnsupportedFeatureError` to `NotImplementedError`
(`PyError.notImplementedError`).
-/

namespace RtpDepay

/-- Python exceptions that the depacketizer can raise. -/
inductive PyError where
  | valueError (msg : String)
  | assertionError
  | notImplementedError (msg : String)
deriving DecidableEq, Repr

deriving instance DecidableEq for Except

/-- `frame.AGG_PKT`: aggregation packet NAL unit type. -/
def AGG_PKT : Nat := 48

/-- `frame.FRAG_UNIT`: fragmentation unit NAL unit type. -/
def FRAG_UNIT : Nat := 49

/-- `frame.PACI_PKT`: PACI packet NAL unit type. -/
def PACI_PKT : Nat := 50

/-- `frame.NetworkAbstractLayerHevc`: the 2-byte HEVC NAL-unit-like header. -/
structure NetworkAbstractLayerHevc where
  forbidden_zero_bit : Bool
  nal_unit_type : Nat
  nuh_layer_id : Nat
  nuh_temporal_id_plus_one : Nat
deriving DecidableEq, Repr

/-- `NetworkAbstractLayerHevc.unmarshal` (frame.py): decode a 2-byte NAL
header; `ValueError` on short input, set forbidden bit, nonzero layer id, or
zero temporal id.  `(data[0] >> 7) & 0x01` is `d0 / 128 % 2`,
`(data[0] >> 1) & 0x3F` is `d0 / 2 % 64`,
`((data[0] & 0x01) << 5) | ((data[1] >> 3) & 0x1F)` is
`d0 % 2 * 32 + d1 / 8 % 32` (the two bit ranges are disjoint, so `|` is `+`),
`data[1] & 0x07` is `d1 % 8`. -/
def NetworkAbstractLayerHevc.unmarshal (data : List Nat) :
    Except PyError NetworkAbstractLayerHevc :=
  match data with
  | d0 :: d1 :: _ =>
    let forbidden_zero_bit : Bool := decide (d0 / 128 % 2 = 1)
    if forbidden_zero_bit then
      .error (.valueError "Forbidden zero bit is not zero, expected to be zero")
    else
      let nal_unit_type := d0 / 2 % 64
      let nuh_layer_id := d0 % 2 * 32 + d1 / 8 % 32
      if nuh_layer_id ≠ 0 then
        .error (.valueError "nuh_layer_id is not zero")
      else
        let nuh_temporal_id_plus_one := d1 % 8
        if nuh_temporal_id_plus_one = 0 then
          .error (.valueError "nuh_temporal_id_plus1 is zero")
        else
          .ok ⟨forbidden_zero_bit, nal_unit_type, nuh_layer_id,
               nuh_temporal_id_plus_one⟩
  | _ => .error (.valueError "NAL header must be at least 2 bytes long")

/-- `NetworkAbstractLayerHevc.marshal` (frame.py): encode the header into 2
bytes.  `(int(f) << 7) | ((t & 0x3F) << 1) | (layer >> 5)` is
`f * 128 + t % 64 * 2 + layer / 32` and
`((layer & 0x1F) << 3) | (tid & 0x07)` is `layer % 32 * 8 + tid % 8`
(bit ranges disjoint for in-range fields, so `|` is `+`). -/
def NetworkAbstractLayerHevc.marshal (h : NetworkAbstractLayerHevc) : List Nat :=
  [(cond h.forbidden_zero_bit 1 0) * 128 + h.nal_unit_type % 64 * 2 +
     h.nuh_layer_id / 32,
   h.nuh_layer_id % 32 * 8 + h.nuh_temporal_id_plus_one % 8]

/-- `decode.FragmentUnitHeader`: the 1-byte FU header.  The source docstring
declares `unit_type` to be a 6-bit field. -/
structure FragmentUnitHeader where
  S : Bool
  E : Bool
  unit_type : Nat
deriving DecidableEq, Repr

/-- `FragmentUnitHeader.unmarshal` (decode.py): decode the FU header byte.
`b[0] & 0x80` tests bit 7 (`b0 / 128 % 2`), `b[0] & 0x40` tests bit 6
(`b0 / 64 % 2`), and the code computes `unit_type = b[0] & 0x1F`, i.e.
`b0 % 32` — only the low FIVE bits, although the field is documented as
6-bit.  The `assert len(b) >= 1` becomes the empty-list branch. -/
def FragmentUnitHeader.unmarshal (b : List Nat) :
    Except PyError FragmentUnitHeader :=
  match b with
  | b0 :: _ =>
    .ok ⟨decide (b0 / 128 % 2 = 1), decide (b0 / 64 % 2 = 1), b0 % 32⟩
  | [] => .error .assertionError

/-- `decode.parse_fu`: split an FU payload into its FU header and fragment
bytes.  `assert len(b) >= 4`; the first two bytes must decode as a NAL header
with `nal_unit_type == FRAG_UNIT` (`assert`); byte 2 is the FU header;
`b[3:]` is the fragment. -/
def parse_fu (b : List Nat) :
    Except PyError (FragmentUnitHeader × List Nat) :=
  if b.length < 4 then .error .assertionError
  else
    match NetworkAbstractLayerHevc.unmarshal (b.take 2) with
    | .error e => .error e
    | .ok payload_hdr =>
      if payload_hdr.nal_unit_type ≠ FRAG_UNIT then .error .assertionError
      else
        match FragmentUnitHeader.unmarshal ((b.drop 2).take 1) with
        | .error e => .error e
        | .ok FU_header => .ok (FU_header, b.drop 3)

/-- `decode.AssignedType`: IANA static RTP payload type assignments. -/
inductive AssignedType where
  | pcmu | gsm | g723 | dvi4_1 | dvi4_2 | lpc | pcma | g722 | l16_1 | l16_2
  | qcelp | cn | mpa | g728 | dvi4_3 | dvi4_4 | g729 | celb | jpeg | nv
  | h261 | mpv | mp2t | h263 | mpeg_ps
deriving DecidableEq, Repr

/-- The Python `AssignedType(t)` constructor: look a numeric payload type up
in the IANA table; `None` models the `ValueError` fallback path. -/
def AssignedType.ofValue (n : Nat) : Option AssignedType :=
  match n with
  | 0 => some .pcmu
  | 3 => some .gsm
  | 4 => some .g723
  | 5 => some .dvi4_1
  | 6 => some .dvi4_2
  | 7 => some .lpc
  | 8 => some .pcma
  | 9 => some .g722
  | 10 => some .l16_1
  | 11 => some .l16_2
  | 12 => some .qcelp
  | 13 => some .cn
  | 14 => some .mpa
  | 15 => some .g728
  | 16 => some .dvi4_3
  | 17 => some .dvi4_4
  | 18 => some .g729
  | 25 => some .celb
  | 26 => some .jpeg
  | 28 => some .nv
  | 31 => some .h261
  | 32 => some .mpv
  | 33 => some .mp2t
  | 34 => some .h263
  | 96 => some .mpeg_ps
  | _ => none

/-- `decode.PayloadType = AssignedType | int`: tagged union of a known
assignment and a raw numeric code. -/
inductive PayloadType where
  | assigned (t : AssignedType)
  | raw (n : Nat)
deriving DecidableEq, Repr

/-- `decode.RTPHeader`: the decoded RTP fixed header. -/
structure RTPHeader where
  version : Nat
  has_padding : Bool
  has_extension : Bool
  csrc_count : Nat
  is_marker : Bool
  payload_type : PayloadType
  sequence_number : Nat
  timestamp : Nat
  ssrc : Nat
deriving DecidableEq, Repr

/-- `decode.RTP_HEADER_SIZE = struct.calcsize('!BBHII') = 12`. -/
def RTP_HEADER_SIZE : Nat := 12

/-- `decode.decode_rtp_header`: unpack `'!BBHII'` from the first 12 bytes
(`ValueError` when fewer than 12 are present) and bit-extract the fields:
version `(b0 >> 6) & 0x03 = b0 / 64 % 4`, padding bit `(b0 >> 5) & 0x01`,
extension bit `(b0 >> 4) & 0x01`, `csrc_count = b0 & 0x0F = b0 % 16`,
marker `(b1 >> 7) & 0x01`, payload type `b1 & 0x7F = b1 % 128`; sequence
number, timestamp and ssrc are big-endian 16/32/32-bit integers. -/
def decode_rtp_header (packet : List Nat) : Except PyError RTPHeader :=
  match packet with
  | b0 :: b1 :: s0 :: s1 :: t0 :: t1 :: t2 :: t3 :: c0 :: c1 :: c2 :: c3 :: _ =>
    let t := b1 % 128
    .ok { version := b0 / 64 % 4
          has_padding := decide (b0 / 32 % 2 = 1)
          has_extension := decide (b0 / 16 % 2 = 1)
          csrc_count := b0 % 16
          is_marker := decide (b1 / 128 % 2 = 1)
          payload_type := match AssignedType.ofValue t with
                          | some a => .assigned a
                          | none => .raw t
          sequence_number := s0 * 256 + s1
          timestamp := ((t0 * 256 + t1) * 256 + t2) * 256 + t3
          ssrc := ((c0 * 256 + c1) * 256 + c2) * 256 + c3 }
  | _ => .error (.valueError "Packet is too short to contain a valid RTP header")

/-- `decode.header_length`: `12 + 4 * csrc_count`. -/
def header_length (packet : RTPHeader) : Nat :=
  12 + 4 * packet.csrc_count

/-- `decode.unwrap_rtp`: decode the RTP header and drop it (CSRC space
included) from the packet. -/
def unwrap_rtp (packet : List Nat) : Except PyError (RTPHeader × List Nat) :=
  match decode_rtp_header packet with
  | .error e => .error e
  | .ok header => .ok (header, packet.drop (header_length header))

/-- `decode.FragmentAssembler`: in-flight reassembly state.  The Python
`Optional` fields are both populated for the whole lifetime the engine keeps
the assembler, so they are embedded as plain fields. -/
structure FragmentAssembler where
  _data : List Nat
  _first_header : FragmentUnitHeader
deriving DecidableEq, Repr

/-- `FragmentAssembler.__init__`: parse the FU payload and require `S`
(`assert h.S`), keeping the first FU header and initial fragment bytes. -/
def FragmentAssembler.init (data : List Nat) :
    Except PyError FragmentAssembler :=
  match parse_fu data with
  | .error e => .error e
  | .ok (h, r) =>
    if ¬ h.S then .error .assertionError
    else .ok ⟨r, h⟩

/-- Result of `FragmentAssembler.next`: either a completed unit (the Python
method resets the assembler and returns `(header, data)`; the engine then
drops its reference) or the updated accumulating assembler (Python returns
`None`). -/
inductive NextResult where
  | done (h : FragmentUnitHeader) (d : List Nat)
  | continuing (a : FragmentAssembler)
deriving DecidableEq, Repr

/-- `FragmentAssembler.next`: parse the FU payload, require `not h.S`
(`assert`), append the fragment bytes, and complete when `E` is set. -/
def FragmentAssembler.next (a : FragmentAssembler) (data : List Nat) :
    Except PyError NextResult :=
  match parse_fu data with
  | .error e => .error e
  | .ok (h, r) =>
    if h.S then .error .assertionError
    else
      let d := a._data ++ r
      if h.E then .ok (.done a._first_header d)
      else .ok (.continuing ⟨d, a._first_header⟩)

/-- `decode.NalLike = FragmentUnitHeader | NetworkAbstractLayerHevc`: the
header part of a yielded unit.  `fu` marks a reassembled (Fragmented) unit,
`nal` a single-NAL-unit (Direct) one. -/
inductive NalLike where
  | fu (h : FragmentUnitHeader)
  | nal (h : NetworkAbstractLayerHevc)
deriving DecidableEq, Repr

/-- The engine's `asm` variable: `None` is Idle, `some` is Accumulating. -/
abbrev EngineState := Option FragmentAssembler

/-- Outcome of a (partial) run of the `parse_parse` generator: the units it
yielded, and the exception (if any) that ended the iteration. -/
structure ParseResult where
  yielded : List (NalLike × List Nat)
  error : Option PyError
deriving DecidableEq, Repr

/-- One iteration of the `parse_parse` loop body (decode.py lines 240-271)
on a single framed packet: unwrap RTP, decode the leading NAL header, and
dispatch on `nal_unit_type`.  Returns the next engine state and the unit
yielded by this iteration, if any. -/
def parse_step (asm : EngineState) (cat : List Nat) :
    Except PyError (EngineState × Option (NalLike × List Nat)) :=
  match unwrap_rtp cat with
  | .error e => .error e
  | .ok (_h, b) =>
    match NetworkAbstractLayerHevc.unmarshal (b.take 2) with
    | .error e => .error e
    | .ok nal_header =>
      if nal_header.nal_unit_type = FRAG_UNIT then
        match asm with
        | none =>
          match FragmentAssembler.init b with
          | .error e => .error e
          | .ok a => .ok (some a, none)
        | some a =>
          match a.next b with
          | .error e => .error e
          | .ok (.done h d) => .ok (none, some (.fu h, d))
          | .ok (.continuing a2) => .ok (some a2, none)
      else if nal_header.nal_unit_type = AGG_PKT then
        .error (.notImplementedError "Aggregation packet is not supported")
      else if nal_header.nal_unit_type = PACI_PKT then
        .error (.notImplementedError "PACI packet is not supported")
      else
        .ok (asm, some (.nal nal_header, b))

/-- Fold `parse_step` over a packet list, collecting yields until the first
exception; also returns the final engine state (meaningful when no exception
occurred). -/
def parse_run_aux (asm : EngineState) (pkts : List (List Nat)) :
    ParseResult × EngineState :=
  match pkts with
  | [] => (⟨[], none⟩, asm)
  | p :: rest =>
    match parse_step asm p with
    | .error e => (⟨[], some e⟩, asm)
    | .ok (asm2, out) =>
      let r := parse_run_aux asm2 rest
      (⟨out.toList ++ r.1.yielded, r.1.error⟩, r.2)

/-- The depacketization engine on an ordered packet sequence: the units the
`parse_parse` generator yields and the exception that stops it, if any. -/
def parse_run (asm : EngineState) (pkts : List (List Nat)) : ParseResult :=
  (parse_run_aux asm pkts).1

/-- `serve.MAGIC = b"cat"`. -/
def MAGIC : List Nat := [99, 97, 116]

/-- `serve.CatHeader.needed_bytes() = len(MAGIC) + 4 = 7`. -/
def CatHeader.needed_bytes : Nat := 7

/-- `serve.CatHeader.unpack_cat`: unpack `'!3sI'` from the first 7 bytes
(struct.error if fewer), `assert magic == MAGIC`, and split off
`data[SZ:SZ+length]` and `data[SZ+length:]`. -/
def CatHeader.unpack_cat (data : List Nat) :
    Except PyError (List Nat × List Nat) :=
  match data with
  | m0 :: m1 :: m2 :: l0 :: l1 :: l2 :: l3 :: rest =>
    if [m0, m1, m2] ≠ MAGIC then .error .assertionError
    else
      let length := ((l0 * 256 + l1) * 256 + l2) * 256 + l3
      .ok (rest.take length, rest.drop length)
  | _ => .error (.valueError "struct.error: unpack requires 7 bytes")

/-- `serve.CatHeader.iter_stream`, with explicit fuel for structural
recursion (each record consumes at least 7 bytes, so fuel `data.length`
suffices): the framed payloads in order, with the exception (bad magic) that
would interrupt the generator, if any. -/
def CatHeader.iter_stream_go (fuel : Nat) (data : List Nat) :
    List (List Nat) × Option PyError :=
  match fuel with
  | 0 => ([], none)
  | fuel + 1 =>
    if data.length < CatHeader.needed_bytes then ([], none)
    else
      match CatHeader.unpack_cat data with
      | .error e => ([], some e)
      | .ok (pkt, rest) =>
        let r := CatHeader.iter_stream_go fuel rest
        (pkt :: r.1, r.2)

/-- `serve.CatHeader.iter_stream` on a whole buffer. -/
def CatHeader.iter_stream (data : List Nat) :
    List (List Nat) × Option PyError :=
  CatHeader.iter_stream_go data.length data

/-- `serve.CatHeader.pack_with_cat`: `MAGIC || len(data) as uint32 be ||
data`. -/
def CatHeader.pack_with_cat (data : List Nat) : List Nat :=
  MAGIC ++ [data.length / 16777216 % 256, data.length / 65536 % 256,
            data.length / 256 % 256, data.length % 256] ++ data

/-- `decode.parse_parse` on a cat-framed buffer.  The generator pulls framed
packets lazily, so an engine exception on packet `i` precedes a framing
exception on record `i + 1`: the engine error, when present, wins. -/
def parse_parse (data : List Nat) : ParseResult :=
  let s := CatHeader.iter_stream data
  let r := parse_run none s.1
  match r.error with
  | some _ => r
  | none => ⟨r.yielded, s.2⟩

/-- `decode.HEVC_NAL_MAGIC`: the 3-byte Annex-B start code. -/
def HEVC_NAL_MAGIC : List Nat := [0, 0, 1]

/-- The write performed by `decode.parse_cat` for one yielded unit: for a
`FragmentUnitHeader` a dummy NAL header (`forbidden_zero_bit=False,
nal_unit_type=h.unit_type, nuh_layer_id=0, nuh_temporal_id_plus_one=1`) is
synthesized and marshalled between the start code and the payload; for a
`NetworkAbstractLayerHevc` the payload (which still starts with its original
2-byte NAL header) follows the start code directly. -/
def write_nal (u : NalLike × List Nat) : List Nat :=
  match u with
  | (.fu h, b) =>
    HEVC_NAL_MAGIC ++ NetworkAbstractLayerHevc.marshal ⟨false, h.unit_type, 0, 1⟩ ++ b
  | (.nal _, b) => HEVC_NAL_MAGIC ++ b

/-- The bytes `decode.parse_cat` writes to its output file for a cat-framed
input buffer, together with the exception (if any) that aborted the loop
after those writes. -/
def parse_cat_output (data : List Nat) : List Nat × Option PyError :=
  let r := parse_parse data
  ((r.yielded.map write_nal).flatten, r.error)

/-! ### Codec-level lemmas -/

/-- Branch-by-branch characterization of the NAL header decoder on an input
of length at least 2. -/
theorem unmarshal_branches (d0 d1 : Nat) (rest : List Nat) :
    (d0 / 128 % 2 = 1 →
      NetworkAbstractLayerHevc.unmarshal (d0 :: d1 :: rest) =
        .error (.valueError "Forbidden zero bit is not zero, expected to be zero")) ∧
    (d0 / 128 % 2 ≠ 1 → d0 % 2 * 32 + d1 / 8 % 32 ≠ 0 →
      NetworkAbstractLayerHevc.unmarshal (d0 :: d1 :: rest) =
        .error (.valueError "nuh_layer_id is not zero")) ∧
    (d0 / 128 % 2 ≠ 1 → d0 % 2 * 32 + d1 / 8 % 32 = 0 → d1 % 8 = 0 →
      NetworkAbstractLayerHevc.unmarshal (d0 :: d1 :: rest) =
        .error (.valueError "nuh_temporal_id_plus1 is zero")) ∧
    (d0 / 128 % 2 ≠ 1 → d0 % 2 * 32 + d1 / 8 % 32 = 0 → d1 % 8 ≠ 0 →
      NetworkAbstractLayerHevc.unmarshal (d0 :: d1 :: rest) =
        .ok ⟨false, d0 / 2 % 64, 0, d1 % 8⟩) := by
  refine ⟨fun h1 => ?_, fun h1 h2 => ?_, fun h1 h2 h3 => ?_, fun h1 h2 h3 => ?_⟩
  · simp [NetworkAbstractLayerHevc.unmarshal, h1]
  · simp [NetworkAbstractLayerHevc.unmarshal, h1, h2]
  · simp [NetworkAbstractLayerHevc.unmarshal, h1, h2, h3]
  · simp [NetworkAbstractLayerHevc.unmarshal, h1, h2, h3]

/-- Success of the NAL header decoder on a cons-shaped input whose leading
byte is `ty * 2` (forbidden bit clear, layer id 0) and whose second byte is
a temporal id in `1..7`. -/
theorem unmarshal_double_cons (ty tid : Nat) (rest : List Nat)
    (hty : ty ≤ 63) (htid1 : 1 ≤ tid) (htid7 : tid ≤ 7) :
    NetworkAbstractLayerHevc.unmarshal (ty * 2 :: tid :: rest) =
      .ok ⟨false, ty, 0, tid⟩ := by
  have h := (unmarshal_branches (ty * 2) tid rest).2.2.2
    (by omega) (by omega) (by omega)
  rw [h]
  congr 2 <;> omega

/-- C5: for every 2-byte input that the HEVC NAL header decoder accepts,
re-encoding the decoded header reproduces the input exactly:
`h.marshal = [x0, x1]` whenever `unmarshal [x0, x1] = .ok h`. -/
theorem c5_nal_header_roundtrip (x0 x1 : Nat) (h : NetworkAbstractLayerHevc)
    (hx0 : x0 < 256) (hx1 : x1 < 256)
    (hok : NetworkAbstractLayerHevc.unmarshal [x0, x1] = .ok h) :
    h.marshal = [x0, x1] := by
  by_cases h1 : x0 / 128 % 2 = 1
  · rw [(unmarshal_branches x0 x1 []).1 h1] at hok
    simp at hok
  · by_cases h2 : x0 % 2 * 32 + x1 / 8 % 32 = 0
    · by_cases h3 : x1 % 8 = 0
      · rw [(unmarshal_branches x0 x1 []).2.2.1 h1 h2 h3] at hok
        simp at hok
      · rw [(unmarshal_branches x0 x1 []).2.2.2 h1 h2 h3] at hok
        simp only [Except.ok.injEq] at hok
        subst hok
        simp only [NetworkAbstractLayerHevc.marshal, cond_false]
        simp only [List.cons.injEq, and_true]
        omega
    · rw [(unmarshal_branches x0 x1 []).2.1 h1 h2] at hok
      simp at hok

/-- C5 witness: the decoder accepts `[0x40, 0x01]` (a VPS header) and the
round trip reproduces it. -/
theorem c5_witness :
    NetworkAbstractLayerHevc.unmarshal [64, 1] = .ok ⟨false, 32, 0, 1⟩ ∧
      NetworkAbstractLayerHevc.marshal ⟨false, 32, 0, 1⟩ = [64, 1] :=
  ⟨by decide, c5_nal_header_roundtrip 64 1 ⟨false, 32, 0, 1⟩ (by decide)
    (by decide) (by decide)⟩

/-- C6: the HEVC NAL header decoder fails exactly when the input has fewer
than 2 bytes, the forbidden bit (bit 7 of byte 0) is set, the decoded
`nuh_layer_id` is nonzero, or the decoded `nuh_temporal_id_plus_one` is
zero; on every other input it succeeds with the bit-extracted fields. -/
theorem c6_nal_decode_failure_conditions (l : List Nat) :
    ((∃ e, NetworkAbstractLayerHevc.unmarshal l = .error e) ↔
      (l.length < 2 ∨ l.getD 0 0 / 128 % 2 = 1 ∨
        l.getD 0 0 % 2 * 32 + l.getD 1 0 / 8 % 32 ≠ 0 ∨ l.getD 1 0 % 8 = 0)) ∧
    (∀ h, NetworkAbstractLayerHevc.unmarshal l = .ok h →
      h = ⟨false, l.getD 0 0 / 2 % 64,
           l.getD 0 0 % 2 * 32 + l.getD 1 0 / 8 % 32, l.getD 1 0 % 8⟩) := by
  rcases l with _ | ⟨d0, _ | ⟨d1, rest⟩⟩
  · simp [NetworkAbstractLayerHevc.unmarshal]
  · simp [NetworkAbstractLayerHevc.unmarshal]
  · have hb := unmarshal_branches d0 d1 rest
    simp only [List.getD_cons_zero, List.getD_cons_succ, List.length_cons]
    by_cases h1 : d0 / 128 % 2 = 1
    · rw [hb.1 h1]
      simp [h1]
    · by_cases h2 : d0 % 2 * 32 + d1 / 8 % 32 = 0
      · by_cases h3 : d1 % 8 = 0
        · rw [hb.2.2.1 h1 h2 h3]
          simp [h1, h2, h3]
        · rw [hb.2.2.2 h1 h2 h3]
          constructor
          · simp [h1, h2, h3]
          · intro h hok
            simp only [Except.ok.injEq] at hok
            rw [← hok, h2]
      · rw [hb.2.1 h1 h2]
        simp [h2]

/-- C6 witness: the characterization at the accepted input `[0x40, 0x01]`:
no failure, and the decoded fields are the bit-extracted ones. -/
theorem c6_witness :
    ¬ (∃ e, NetworkAbstractLayerHevc.unmarshal [64, 1] = .error e) ∧
      (∀ h, NetworkAbstractLayerHevc.unmarshal [64, 1] = .ok h →
        h = ⟨false, 32, 0, 1⟩) := by
  have h := c6_nal_decode_failure_conditions [64, 1]
  constructor
  · intro he
    have := h.1.mp he
    simp at this
  · intro hd hok
    exact h.2 hd hok

/-- C7: the RTP fixed-header decoder fails exactly on packets shorter than
12 bytes; on any packet of length at least 12 it succeeds, and the derived
payload offset `header_length` equals `12 + 4 * csrc_count` with
`csrc_count` the low 4 bits of byte 0. -/
theorem c7_rtp_decode_length (packet : List Nat) :
    ((∃ e, decode_rtp_header packet = .error e) ↔ packet.length < 12) ∧
    (∀ h, decode_rtp_header packet = .ok h →
      header_length h = 12 + 4 * (packet.getD 0 0 % 16)) := by
  rcases packet with _ | ⟨b0, _ | ⟨b1, _ | ⟨s0, _ | ⟨s1, _ | ⟨t0, _ | ⟨t1,
    _ | ⟨t2, _ | ⟨t3, _ | ⟨c0, _ | ⟨c1, _ | ⟨c2, _ | ⟨c3, rest⟩⟩⟩⟩⟩⟩⟩⟩⟩⟩⟩⟩
  all_goals simp [decode_rtp_header, header_length]

/-- C7 witness: a 12-byte packet with `csrc_count = 3` decodes, and its
payload offset is `12 + 4 * 3 = 24`. -/
theorem c7_witness :
    ¬ (∃ e, decode_rtp_header [131, 96, 0, 0, 0, 0, 0, 0, 0, 0, 0, 0] = .error e) ∧
      (∀ h, decode_rtp_header [131, 96, 0, 0, 0, 0, 0, 0, 0, 0, 0, 0] = .ok h →
        header_length h = 24) := by
  have h := c7_rtp_decode_length [131, 96, 0, 0, 0, 0, 0, 0, 0, 0, 0, 0]
  constructor
  · intro he
    have := h.1.mp he
    simp at this
  · intro hd hok
    exact h.2 hd hok

/-- C3: the FU header decoder truncates the fragmented NAL unit type to five
bits, contradicting the field's own 6-bit documentation: on the byte `0x20`
(fragmented NAL unit type 32) it decodes `unit_type = 0`, while the full
6-bit value `0x20 % 64` is `32`. -/
theorem c3_fu_unit_type_truncated :
    FragmentUnitHeader.unmarshal [32] = .ok ⟨false, false, 0⟩ ∧
      32 % 64 = 32 := by
  decide

/-! ### Scenario packets and engine step lemmas -/

/-- A minimal well-formed 12-byte RTP fixed header: version 2, no padding,
no extension, zero CSRC count, no marker, payload type 96. -/
def mkRtp12 : List Nat := [128, 96, 0, 0, 0, 0, 0, 0, 0, 0, 0, 0]

/-- The header `decode_rtp_header` extracts from `mkRtp12`. -/
def mkRtpHeader : RTPHeader :=
  ⟨2, false, false, 0, false, .assigned .mpeg_ps, 0, 0, 0⟩

/-- A single-NAL-unit RTP packet: `mkRtp12`, then the 2-byte NAL header
(`nal_unit_type = ty`, forbidden bit 0, layer id 0, temporal id `tid`),
then the NAL payload bytes. -/
def mkNalPacket (ty tid : Nat) (pl : List Nat) : List Nat :=
  mkRtp12 ++ ty * 2 :: tid :: pl

/-- An FU header byte: `S` in bit 7, `E` in bit 6, the fragmented NAL unit
type in the low five bits. -/
def fuHeaderByte (S E : Bool) (ty : Nat) : Nat :=
  (cond S 128 0) + (cond E 64 0) + ty % 32

/-- A Fragmentation Unit RTP packet: `mkRtp12`, the 2-byte FU wrapper NAL
header `[0x62, 0x01]` (type 49, layer id 0, temporal id 1), the FU header
byte, then the fragment bytes. -/
def mkFuPacket (S E : Bool) (ty : Nat) (frag : List Nat) : List Nat :=
  mkRtp12 ++ 98 :: 1 :: fuHeaderByte S E ty :: frag

theorem unwrap_rtp_mkRtp12 (pl : List Nat) :
    unwrap_rtp (mkRtp12 ++ pl) = .ok (mkRtpHeader, pl) := rfl

theorem unmarshal_98_1 (rest : List Nat) :
    NetworkAbstractLayerHevc.unmarshal (98 :: 1 :: rest) =
      .ok ⟨false, 49, 0, 1⟩ :=
  (unmarshal_branches 98 1 rest).2.2.2 (by omega) (by omega) (by omega)

theorem fu_unmarshal_byte (S E : Bool) (ty : Nat) (rest : List Nat) :
    FragmentUnitHeader.unmarshal (fuHeaderByte S E ty :: rest) =
      .ok ⟨S, E, ty % 32⟩ := by
  cases S <;> cases E <;>
    simp only [FragmentUnitHeader.unmarshal, fuHeaderByte, cond_true,
      cond_false, Except.ok.injEq, FragmentUnitHeader.mk.injEq,
      decide_eq_true_eq, decide_eq_false_iff_not] <;>
    omega

theorem parse_fu_mk (S E : Bool) (ty : Nat) (frag : List Nat)
    (hf : frag ≠ []) :
    parse_fu (98 :: 1 :: fuHeaderByte S E ty :: frag) =
      .ok (⟨S, E, ty % 32⟩, frag) := by
  have hpos : 0 < frag.length := List.length_pos.mpr hf
  have hlen : ¬ ((98 :: 1 :: fuHeaderByte S E ty :: frag).length < 4) := by
    simp only [List.length_cons]
    omega
  have h1 : (98 :: 1 :: fuHeaderByte S E ty :: frag).take 2 = [98, 1] := rfl
  have h2 : ((98 :: 1 :: fuHeaderByte S E ty :: frag).drop 2).take 1 =
      [fuHeaderByte S E ty] := rfl
  have h3 : (98 :: 1 :: fuHeaderByte S E ty :: frag).drop 3 = frag := rfl
  rw [parse_fu, if_neg hlen, h1, unmarshal_98_1, h2]
  rw [show ([fuHeaderByte S E ty] : List Nat) = fuHeaderByte S E ty :: [] from rfl,
    fu_unmarshal_byte]
  simp [FRAG_UNIT, h3]

/-- `parse_step` on a single-NAL-unit packet, from any engine state: yield
the unit immediately, state unchanged. -/
theorem parse_step_nal (s : EngineState) (ty tid : Nat) (pl : List Nat)
    (hty : ty ≤ 47) (htid1 : 1 ≤ tid) (htid7 : tid ≤ 7) :
    parse_step s (mkNalPacket ty tid pl) =
      .ok (s, some (.nal ⟨false, ty, 0, tid⟩, ty * 2 :: tid :: pl)) := by
  have h1 := unwrap_rtp_mkRtp12 (ty * 2 :: tid :: pl)
  have ht : (ty * 2 :: tid :: pl).take 2 = ty * 2 :: tid :: ([] : List Nat) := rfl
  have h2 := unmarshal_double_cons ty tid [] (by omega) htid1 htid7
  have n1 : ty ≠ FRAG_UNIT := by simp only [FRAG_UNIT]; omega
  have n2 : ty ≠ AGG_PKT := by simp only [AGG_PKT]; omega
  have n3 : ty ≠ PACI_PKT := by simp only [PACI_PKT]; omega
  simp [parse_step, mkNalPacket, h1, ht, h2, n1, n2, n3]

/-- `parse_step` on an Aggregation Packet, from any engine state: raise
`NotImplementedError`. -/
theorem parse_step_agg (s : EngineState) (tid : Nat) (pl : List Nat)
    (htid1 : 1 ≤ tid) (htid7 : tid ≤ 7) :
    parse_step s (mkNalPacket 48 tid pl) =
      .error (.notImplementedError "Aggregation packet is not supported") := by
  have h1 := unwrap_rtp_mkRtp12 (48 * 2 :: tid :: pl)
  have ht : (48 * 2 :: tid :: pl).take 2 = 48 * 2 :: tid :: ([] : List Nat) := rfl
  have h2 := unmarshal_double_cons 48 tid [] (by omega) htid1 htid7
  simp [parse_step, mkNalPacket, h1, ht, h2, FRAG_UNIT, AGG_PKT]

/-- `parse_step` on an FU start packet while Idle: begin accumulating. -/
theorem parse_step_fu_start (ty : Nat) (frag : List Nat) (hf : frag ≠ []) :
    parse_step none (mkFuPacket true false ty frag) =
      .ok (some ⟨frag, ⟨true, false, ty % 32⟩⟩, none) := by
  have h1 := unwrap_rtp_mkRtp12 (98 :: 1 :: fuHeaderByte true false ty :: frag)
  have ht : (98 :: 1 :: fuHeaderByte true false ty :: frag).take 2 =
      98 :: 1 :: ([] : List Nat) := rfl
  have h2 := unmarshal_98_1 ([] : List Nat)
  have h3 := parse_fu_mk true false ty frag hf
  simp [parse_step, mkFuPacket, h1, ht, h2, FRAG_UNIT,
    FragmentAssembler.init, h3]

/-- `parse_step` on an FU continuation packet (`S=0, E=0`) while
Accumulating: append the fragment, keep accumulating. -/
theorem parse_step_fu_cont (a : FragmentAssembler) (ty : Nat)
    (frag : List Nat) (hf : frag ≠ []) :
    parse_step (some a) (mkFuPacket false false ty frag) =
      .ok (some ⟨a._data ++ frag, a._first_header⟩, none) := by
  have h1 := unwrap_rtp_mkRtp12 (98 :: 1 :: fuHeaderByte false false ty :: frag)
  have ht : (98 :: 1 :: fuHeaderByte false false ty :: frag).take 2 =
      98 :: 1 :: ([] : List Nat) := rfl
  have h2 := unmarshal_98_1 ([] : List Nat)
  have h3 := parse_fu_mk false false ty frag hf
  simp [parse_step, mkFuPacket, h1, ht, h2, FRAG_UNIT,
    FragmentAssembler.next, h3]

/-- `parse_step` on an FU end packet (`S=0, E=1`) while Accumulating: yield
the reassembled unit under the first fragment's FU header, back to Idle. -/
theorem parse_step_fu_end (a : FragmentAssembler) (ty : Nat)
    (frag : List Nat) (hf : frag ≠ []) :
    parse_step (some a) (mkFuPacket false true ty frag) =
      .ok (none, some (.fu a._first_header, a._data ++ frag)) := by
  have h1 := unwrap_rtp_mkRtp12 (98 :: 1 :: fuHeaderByte false true ty :: frag)
  have ht : (98 :: 1 :: fuHeaderByte false true ty :: frag).take 2 =
      98 :: 1 :: ([] : List Nat) := rfl
  have h2 := unmarshal_98_1 ([] : List Nat)
  have h3 := parse_fu_mk false true ty frag hf
  simp [parse_step, mkFuPacket, h1, ht, h2, FRAG_UNIT,
    FragmentAssembler.next, h3]

/-- `parse_step` on an FU packet with `S=0` while Idle: `AssertionError`
(either the short-payload assert when the fragment is empty, or the
`assert h.S` in `FragmentAssembler.__init__`), and no unit. -/
theorem parse_step_fu_idle_no_start (E : Bool) (ty : Nat) (frag : List Nat) :
    parse_step none (mkFuPacket false E ty frag) = .error .assertionError := by
  have h1 := unwrap_rtp_mkRtp12 (98 :: 1 :: fuHeaderByte false E ty :: frag)
  have ht : (98 :: 1 :: fuHeaderByte false E ty :: frag).take 2 =
      98 :: 1 :: ([] : List Nat) := rfl
  have h2 := unmarshal_98_1 ([] : List Nat)
  rcases frag with _ | ⟨f0, frest⟩
  · have h3 : parse_fu (98 :: 1 :: fuHeaderByte false E ty :: []) =
        .error .assertionError := by
      simp [parse_fu]
    simp [parse_step, mkFuPacket, h1, ht, h2, FRAG_UNIT,
      FragmentAssembler.init, h3]
  · have h3 := parse_fu_mk false E ty (f0 :: frest) (by simp)
    simp [parse_step, mkFuPacket, h1, ht, h2, FRAG_UNIT,
      FragmentAssembler.init, h3]

/-! ### Engine run lemmas -/

theorem parse_run_aux_cons_ok (s s2 : EngineState)
    (out : Option (NalLike × List Nat)) (p : List Nat) (rest : List (List Nat))
    (h : parse_step s p = .ok (s2, out)) :
    parse_run_aux s (p :: rest) =
      (⟨out.toList ++ (parse_run_aux s2 rest).1.yielded,
        (parse_run_aux s2 rest).1.error⟩,
       (parse_run_aux s2 rest).2) := by
  simp [parse_run_aux, h]

theorem parse_run_aux_cons_err (s : EngineState) (p : List Nat)
    (rest : List (List Nat)) (e : PyError)
    (h : parse_step s p = .error e) :
    parse_run_aux s (p :: rest) = (⟨[], some e⟩, s) := by
  simp [parse_run_aux, h]

theorem parse_run_aux_append (xs ys : List (List Nat)) (s : EngineState)
    (h : (parse_run_aux s xs).1.error = none) :
    parse_run_aux s (xs ++ ys) =
      (⟨(parse_run_aux s xs).1.yielded ++
          (parse_run_aux (parse_run_aux s xs).2 ys).1.yielded,
        (parse_run_aux (parse_run_aux s xs).2 ys).1.error⟩,
       (parse_run_aux (parse_run_aux s xs).2 ys).2) := by
  induction xs generalizing s with
  | nil => simp [parse_run_aux]
  | cons x xs ih =>
    match hstep : parse_step s x with
    | .error e =>
      rw [parse_run_aux_cons_err s x xs e hstep] at h
      simp at h
    | .ok (s2, out) =>
      rw [parse_run_aux_cons_ok s s2 out x xs hstep] at h
      rw [List.cons_append,
        parse_run_aux_cons_ok s s2 out x (xs ++ ys) hstep,
        parse_run_aux_cons_ok s s2 out x xs hstep]
      simp only at h
      rw [ih s2 h]
      simp [List.append_assoc]

/-- A run of FU continuation packets (`S=0, E=0`, nonempty fragments) while
Accumulating yields nothing, raises nothing, and ends Accumulating with all
fragments appended. -/
theorem parse_run_aux_fu_conts (mids : List (Nat × List Nat))
    (a : FragmentAssembler)
    (hm : ∀ m ∈ mids, m.2 ≠ []) :
    parse_run_aux (some a)
        (mids.map fun m => mkFuPacket false false m.1 m.2) =
      (⟨[], none⟩,
       some ⟨a._data ++ (mids.map Prod.snd).flatten, a._first_header⟩) := by
  induction mids generalizing a with
  | nil => simp [parse_run_aux]
  | cons m mids ih =>
    have hm0 : m.2 ≠ [] := hm m (by simp)
    rw [List.map_cons,
      parse_run_aux_cons_ok (some a) (some ⟨a._data ++ m.2, a._first_header⟩)
        none _ _ (parse_step_fu_cont a m.1 m.2 hm0),
      ih ⟨a._data ++ m.2, a._first_header⟩ (fun x hx => hm x (by simp [hx]))]
    simp [List.append_assoc]

/-- A run of FU continuations closed by an FU end packet, while
Accumulating: exactly one unit is yielded, carrying the first fragment's FU
header and the full accumulated payload, and the engine returns to Idle. -/
theorem parse_run_aux_fu_tail (mids : List (Nat × List Nat))
    (a : FragmentAssembler) (tyl : Nat) (fl : List Nat)
    (hm : ∀ m ∈ mids, m.2 ≠ []) (hfl : fl ≠ []) :
    parse_run_aux (some a)
        ((mids.map fun m => mkFuPacket false false m.1 m.2) ++
          [mkFuPacket false true tyl fl]) =
      (⟨[(.fu a._first_header,
          a._data ++ (mids.map Prod.snd).flatten ++ fl)], none⟩,
       none) := by
  have hstep := parse_step_fu_end
    ⟨a._data ++ (mids.map Prod.snd).flatten, a._first_header⟩ tyl fl hfl
  simp only at hstep
  rw [parse_run_aux_append _ _ _ (by rw [parse_run_aux_fu_conts mids a hm]),
    parse_run_aux_fu_conts mids a hm]
  simp only
  rw [parse_run_aux_cons_ok _ none _ _ _ hstep]
  simp [parse_run_aux]

/-! ### Engine-level claims -/

/-- C2: a fragmented run — an FU start packet (`S=1, E=0`), then
continuation packets (`S=0, E=0`), then an FU end packet (`S=0, E=1`), i.e.
`k = 2 + mids.length ≥ 2` FU packets with `S` set only on the first and `E`
set only on the last — yields exactly one Fragmented reconstructed unit; its
payload is the concatenation, in arrival order, of each fragment's bytes
after the 3-byte FU prefix, and it carries the FU header decoded from the
first fragment. -/
theorem c2_fragmented_run_yields_one_unit (ty : Nat) (f0 : List Nat)
    (mids : List (Nat × List Nat)) (tyl : Nat) (fl : List Nat)
    (hf0 : f0 ≠ []) (hm : ∀ m ∈ mids, m.2 ≠ []) (hfl : fl ≠ []) :
    parse_run none
        (mkFuPacket true false ty f0 ::
          ((mids.map fun m => mkFuPacket false false m.1 m.2) ++
            [mkFuPacket false true tyl fl])) =
      ⟨[(.fu ⟨true, false, ty % 32⟩,
         f0 ++ (mids.map Prod.snd).flatten ++ fl)], none⟩ := by
  rw [parse_run,
    parse_run_aux_cons_ok none (some ⟨f0, ⟨true, false, ty % 32⟩⟩) none _ _
      (parse_step_fu_start ty f0 hf0)]
  have h := parse_run_aux_fu_tail mids ⟨f0, ⟨true, false, ty % 32⟩⟩ tyl fl hm hfl
  simp only at h
  rw [h]
  simp [List.append_assoc]

/-- C2 witness: a 2-packet fragmented run (`"AB"` then `"CD"`, type 1)
yields the single Fragmented unit with payload `"ABCD"`. -/
theorem c2_witness :
    ([65, 66] : List Nat) ≠ [] ∧ ([67, 68] : List Nat) ≠ [] ∧
      parse_run none
          [mkFuPacket true false 1 [65, 66], mkFuPacket false true 1 [67, 68]] =
        ⟨[(.fu ⟨true, false, 1⟩, [65, 66, 67, 68])], none⟩ :=
  ⟨by decide, by decide,
    c2_fragmented_run_yields_one_unit 1 [65, 66] [] 1 [67, 68] (by decide)
      (by simp) (by decide)⟩

/-- C4 counterexample: a single-NAL-unit packet (type 32, temporal id 1,
NAL payload `"P"`) yields a Direct unit whose payload is the full RTP
payload `[0x40, 0x01, 0x50]` — including the 2-byte NAL header — not the
RTP payload minus that header, `[0x50]`. -/
theorem c4_counterexample :
    (parse_run none [mkNalPacket 32 1 [80]]).yielded.map Prod.snd =
        [[64, 1, 80]] ∧
      ([64, 1, 80] : List Nat) ≠ [80] := by
  decide

/-- C4 (amended): a stream of `N` single-NAL-unit packets (types 0–47)
yields exactly `N` Direct reconstructed units, in input order, each with
payload equal to the packet's FULL RTP payload, i.e. including its leading
2-byte NAL header. -/
theorem c4_single_nal_stream_amended (ps : List (Nat × Nat × List Nat))
    (hp : ∀ x ∈ ps, x.1 ≤ 47 ∧ 1 ≤ x.2.1 ∧ x.2.1 ≤ 7) :
    parse_run none (ps.map fun x => mkNalPacket x.1 x.2.1 x.2.2) =
      ⟨ps.map fun x =>
         (.nal ⟨false, x.1, 0, x.2.1⟩, x.1 * 2 :: x.2.1 :: x.2.2), none⟩ := by
  induction ps with
  | nil => rfl
  | cons x ps ih =>
    obtain ⟨h1, h2, h3⟩ := hp x (by simp)
    have hstep := parse_step_nal none x.1 x.2.1 x.2.2 h1 h2 h3
    have ih2 := ih fun y hy => hp y (List.mem_cons_of_mem x hy)
    rw [parse_run] at ih2 ⊢
    rw [List.map_cons, parse_run_aux_cons_ok none none _ _ _ hstep]
    simp only [ih2]
    simp

/-- C4 witness: two single-NAL packets yield two Direct units in order,
each with its full RTP payload. -/
theorem c4_witness :
    ((32, 1, [80]) :: [(33, 2, [81, 82])]).Forall
        (fun x => x.1 ≤ 47 ∧ 1 ≤ x.2.1 ∧ x.2.1 ≤ 7) ∧
      parse_run none [mkNalPacket 32 1 [80], mkNalPacket 33 2 [81, 82]] =
        ⟨[(.nal ⟨false, 32, 0, 1⟩, [64, 1, 80]),
          (.nal ⟨false, 33, 0, 2⟩, [66, 2, 81, 82])], none⟩ :=
  ⟨by decide,
    c4_single_nal_stream_amended ((32, 1, [80]) :: [(33, 2, [81, 82])])
      (by simp)⟩

/-- C8: an FU packet whose FU header has `S=0` arriving while the
reassembler is Idle stops the run with the sequencing `AssertionError` (the
spec's `ProtocolViolationError`) and yields no unit for that packet. -/
theorem c8_continuation_while_idle (E : Bool) (ty : Nat) (frag : List Nat)
    (rest : List (List Nat)) :
    parse_run none (mkFuPacket false E ty frag :: rest) =
      ⟨[], some .assertionError⟩ := by
  rw [parse_run, parse_run_aux_cons_err none _ rest .assertionError
    (parse_step_fu_idle_no_start E ty frag)]

/-- C9: when the packets before an Aggregation Packet (first payload NAL
header type 48) process without error, the run fails with
`NotImplementedError` (the spec's `UnsupportedFeatureError`) at that packet:
exactly the units of the prefix are yielded, in order, and nothing after. -/
theorem c9_aggregation_packet_fails_run (pre suf : List (List Nat))
    (tid : Nat) (pl : List Nat) (htid1 : 1 ≤ tid) (htid7 : tid ≤ 7)
    (hpre : (parse_run none pre).error = none) :
    parse_run none (pre ++ mkNalPacket 48 tid pl :: suf) =
      ⟨(parse_run none pre).yielded,
       some (.notImplementedError "Aggregation packet is not supported")⟩ := by
  rw [parse_run] at hpre ⊢
  rw [parse_run_aux_append pre _ none hpre,
    parse_run_aux_cons_err _ _ suf _
      (parse_step_agg (parse_run_aux none pre).2 tid pl htid1 htid7)]
  simp [parse_run]

/-- C9 witness: an Aggregation Packet as the very first packet fails the
run immediately with no units yielded. -/
theorem c9_witness :
    (1 : Nat) ≤ 1 ∧ (1 : Nat) ≤ 7 ∧ (parse_run none []).error = none ∧
      parse_run none [mkNalPacket 48 1 []] =
        ⟨[], some (.notImplementedError "Aggregation packet is not supported")⟩ :=
  ⟨by decide, by decide, rfl,
    c9_aggregation_packet_fails_run [] [] 1 [] (by decide) (by decide) rfl⟩

/-- C10: if the packet sequence ends while a reassembly is in progress (an
FU start arrived, possibly followed by `S=0, E=0` continuations, but no
`E=1` fragment), the depacketizer terminates normally: the units of the
error-free prefix are yielded, no unit is produced for the partial
fragment, and no error is raised. -/
theorem c10_truncated_fragment_silent (pre : List (List Nat)) (ty : Nat)
    (f0 : List Nat) (mids : List (Nat × List Nat))
    (hpre_err : (parse_run_aux none pre).1.error = none)
    (hpre_st : (parse_run_aux none pre).2 = none)
    (hf0 : f0 ≠ []) (hm : ∀ m ∈ mids, m.2 ≠ []) :
    parse_run none
        (pre ++ mkFuPacket true false ty f0 ::
          (mids.map fun m => mkFuPacket false false m.1 m.2)) =
      ⟨(parse_run none pre).yielded, none⟩ := by
  rw [parse_run, parse_run_aux_append pre _ none hpre_err, hpre_st,
    parse_run_aux_cons_ok none (some ⟨f0, ⟨true, false, ty % 32⟩⟩) none _ _
      (parse_step_fu_start ty f0 hf0)]
  have h := parse_run_aux_fu_conts mids ⟨f0, ⟨true, false, ty % 32⟩⟩ hm
  simp only at h
  rw [h]
  simp [parse_run]

/-- C10 witness: a lone FU start packet with no end produces no unit and no
error. -/
theorem c10_witness :
    (parse_run_aux none []).1.error = none ∧
      (parse_run_aux none []).2 = none ∧ ([65] : List Nat) ≠ [] ∧
      parse_run none [mkFuPacket true false 1 [65]] = ⟨[], none⟩ :=
  ⟨rfl, rfl, by decide,
    c10_truncated_fragment_silent [] 1 [65] [] rfl rfl (by decide) (by simp)⟩

/-- The three packets of the C1 round-trip scenario. -/
def c1_pktA : List Nat := mkRtp12 ++ [64, 1, 80, 83]

def c1_pktB : List Nat := mkRtp12 ++ [98, 1, 129, 65, 66]

def c1_pktC : List Nat := mkRtp12 ++ [98, 1, 65, 67, 68]

/-- The C1 scenario as a cat-framed capture file. -/
def c1_input : List Nat :=
  CatHeader.pack_with_cat c1_pktA ++ CatHeader.pack_with_cat c1_pktB ++
    CatHeader.pack_with_cat c1_pktC

/-- C1: depacketizing the 3-packet sequence — packet A a single NAL unit
(type 32, payload `"PS"`), packet B an FU start (`S=1, E=0`, type 1,
fragment `"AB"`), packet C an FU end (`S=0, E=1`, type 1, fragment `"CD"`)
— and writing the bitstream produces exactly
`00 00 01 || [0x40, 0x01] || "PS" || 00 00 01 || [0x02, 0x01] || "ABCD"`,
with no error. -/
theorem c1_end_to_end_roundtrip :
    parse_cat_output c1_input =
      ([0, 0, 1, 64, 1, 80, 83, 0, 0, 1, 2, 1, 65, 66, 67, 68], none) := by
  decide

end RtpDepay
